import Mathlib

/-!
Verification development for the taskman message-understanding and
request-routing pipeline.

Shallow embedding of:
* `src/api/services/redis_store.py` — `RedisStore.check_rate_limit` over an
  explicit key/value store with expiring counters (time in whole seconds,
  state passed explicitly; the Redis "fail open" exception path is not
  modelled: the embedded store never throws).
* `src/api/services/director.py` — `AIDirector.decide_parsing_mode`,
  `AIDirector.decide_transcription_mode`, `AIDirector._analyze_complexity`.
* `src/api/services/parser.py` — `parse_message`, parametric in the JSON
  decoder and the ISO-datetime parser (external library calls).
* `src/api/services/date_parser.py` — the explicit-time anchoring branch of
  `parse_date_local` (datetimes as whole minutes since an epoch).
* `src/workers/jobs.py` — `create_calendar_event` and
  `_generate_idempotency_key`, with the database row and the connector call
  supplied by an explicit environment.
-/

namespace Taskman

/-! ## Redis counter store (`src/api/services/redis_store.py`) -/

/-- A Redis counter value: the stored integer and its optional absolute
expiry time in seconds.  `INCR` on a fresh key creates the counter with no
expiry; `EXPIRE` then sets one (`check_rate_limit` lines 194-197). -/
structure Counter where
  count : Nat
  expiresAt : Option Nat
deriving DecidableEq

/-- The Redis keyspace, modelled as an association list from keys to
counters; the most recent binding for a key shadows older ones. -/
structure RedisState where
  counters : List (String × Counter)
deriving DecidableEq

/-- Write a counter under a key (shadowing semantics). -/
def setCounter (s : RedisState) (k : String) (c : Counter) : RedisState :=
  ⟨(k, c) :: s.counters⟩

/-- The counter currently visible under `k` at time `now`: Redis deletes a
key lazily once `now` reaches its expiry, so an expired counter reads as
absent. -/
def liveCounter (s : RedisState) (k : String) (now : Nat) : Option Counter :=
  match s.counters.lookup k with
  | some c =>
    match c.expiresAt with
    | some e => if now < e then some c else none
    | none => some c
  | none => none

/-- The raw stored counter value under `k`, ignoring expiry (what `GET`
would show while the key still exists). -/
def storedCount (s : RedisState) (k : String) : Nat :=
  match s.counters.lookup k with
  | some c => c.count
  | none => 0

/-- The counter value an observer sees under `k` at time `now` (0 when the
key is absent or expired). -/
def observedCount (s : RedisState) (k : String) (now : Nat) : Nat :=
  match liveCounter s k now with
  | some c => c.count
  | none => 0

/-- Redis `INCR`: increments the live counter, or creates the key with
value 1 and no expiry when it is absent or expired. -/
def incr (s : RedisState) (k : String) (now : Nat) : Nat × RedisState :=
  match liveCounter s k now with
  | some c => (c.count + 1, setCounter s k { c with count := c.count + 1 })
  | none => (1, setCounter s k { count := 1, expiresAt := none })

/-- Redis `EXPIRE key secs`: sets the expiry of an existing key to
`now + secs`; no-op on a missing key. -/
def expire (s : RedisState) (k : String) (secs : Nat) (now : Nat) : RedisState :=
  match s.counters.lookup k with
  | some c => setCounter s k { c with expiresAt := some (now + secs) }
  | none => s

/-- `RedisStore.check_rate_limit` (redis_store.py lines 175-205): prefix
the key with `"rate:"`, atomically increment, set the expiry on first
touch, and return `(allowed, remaining)` with
`allowed = (count ≤ max_requests)` and
`remaining = max(0, max_requests - count)`.  The exception branch (fail
open) is outside the model: the embedded store never fails. -/
def check_rate_limit (s : RedisState) (key : String) (maxRequests windowSeconds : Nat)
    (now : Nat) : (Bool × Int) × RedisState :=
  let rateKey := "rate:" ++ key
  let current := (incr s rateKey now).1
  let s1 := (incr s rateKey now).2
  let s2 := if current = 1 then expire s1 rateKey windowSeconds now else s1
  ((decide (current ≤ maxRequests), max 0 ((maxRequests : Int) - (current : Int))), s2)

/-- Run a sequence of `check_rate_limit` calls on one key at the given
times, collecting the `(allowed, remaining)` results and the final store. -/
def runLimiter (s : RedisState) (key : String) (maxRequests windowSeconds : Nat) :
    List Nat → List (Bool × Int) × RedisState
  | [] => ([], s)
  | t :: ts =>
    let r := check_rate_limit s key maxRequests windowSeconds t
    let rest := runLimiter r.2 key maxRequests windowSeconds ts
    (r.1 :: rest.1, rest.2)

/-! ## Director (`src/api/services/director.py`) -/

/-- `ProcessingMode` enum (director.py lines 19-25). -/
inductive ProcessingMode where
  | LOCAL_ONLY
  | LOCAL_WITH_GPT_FALLBACK
  | GPT_ONLY
  | QUEUE_FOR_LATER
deriving DecidableEq

/-- `DirectorDecision` dataclass (director.py lines 36-45), with the
dataclass defaults.  Float fields are rationals. -/
structure DirectorDecision where
  mode : ProcessingMode
  reason : String
  confidenceThreshold : Rat := 7/10
  maxTokens : Nat := 1000
  temperature : Rat := 1/10
  delaySeconds : Nat := 0
deriving DecidableEq

/-- Python `str.lower` on one character, restricted to ASCII and the
Cyrillic block — the only alphabets appearing in the keyword and pattern
tables of the source. -/
def pyLowerChar (c : Char) : Char :=
  if 65 ≤ c.toNat ∧ c.toNat ≤ 90 then Char.ofNat (c.toNat + 32)
  else if 1040 ≤ c.toNat ∧ c.toNat ≤ 1071 then Char.ofNat (c.toNat + 32)
  else if c.toNat = 1025 then Char.ofNat 1105
  else c

/-- Python `str.lower`, character by character (see `pyLowerChar`). -/
def pyLower (s : String) : String :=
  ⟨s.data.map pyLowerChar⟩

/-- Python regex `\w` under Unicode, restricted to ASCII alphanumerics,
underscore and the Cyrillic block (the alphabets of the source patterns). -/
def isWordChar (c : Char) : Bool :=
  c.isAlphanum || c = '_' || (1024 ≤ c.toNat && c.toNat ≤ 1279)

/-- If `pat` is a prefix of `cs`, return the remaining characters. -/
def dropLit : List Char → List Char → Option (List Char)
  | [], rest => some rest
  | _ :: _, [] => none
  | p :: ps, c :: rest => if c = p then dropLit ps rest else none

/-- Does the predicate hold of some suffix of the list?  This is the
search part of `re.search`: try every starting position. -/
def anySuffix (p : List Char → Bool) : List Char → Bool
  | [] => p []
  | c :: cs => p (c :: cs) || anySuffix p cs

/-- Python `needle in hay` for a non-empty needle: some suffix of `hay`
starts with `needle`. -/
def containsSub (needle hay : List Char) : Bool :=
  anySuffix (fun suf => needle.isPrefixOf suf) hay

/-- Matcher for `:\d{2}` at the head of the input. -/
def matchColonTwo : List Char → Bool
  | ':' :: a :: b :: _ => a.isDigit && b.isDigit
  | _ => false

/-- `re.search(r"завтра в \d{1,2}", ·)` succeeds at this position:
the literal followed by at least one digit. -/
def matchTomorrowAt (cs : List Char) : Bool :=
  match dropLit "завтра в ".data cs with
  | some (c :: _) => c.isDigit
  | _ => false

/-- `re.search(r"сегодня в \d{1,2}", ·)` at this position. -/
def matchTodayAt (cs : List Char) : Bool :=
  match dropLit "сегодня в ".data cs with
  | some (c :: _) => c.isDigit
  | _ => false

/-- `re.search(r"в \d{1,2}:\d{2}", ·)` at this position: "в ", one or two
digits, then a colon and two digits. -/
def matchAtColonTime (cs : List Char) : Bool :=
  match dropLit "в ".data cs with
  | some (c1 :: rest) =>
    c1.isDigit &&
      (matchColonTwo rest ||
        (match rest with
         | c2 :: rest2 => c2.isDigit && matchColonTwo rest2
         | [] => false))
  | _ => false

/-- `re.search(r"в \d{1,2} час", ·)` at this position. -/
def matchAtHourWord (cs : List Char) : Bool :=
  match dropLit "в ".data cs with
  | some (c1 :: rest) =>
    c1.isDigit &&
      (" час".data.isPrefixOf rest ||
        (match rest with
         | c2 :: rest2 => c2.isDigit && " час".data.isPrefixOf rest2
         | [] => false))
  | _ => false

/-- `re.search(r"встреча с \w+", ·)` at this position. -/
def matchMeetingWith (cs : List Char) : Bool :=
  match dropLit "встреча с ".data cs with
  | some (c :: _) => isWordChar c
  | _ => false

/-- `re.search(r"звонок \w+", ·)` at this position. -/
def matchCallName (cs : List Char) : Bool :=
  match dropLit "звонок ".data cs with
  | some (c :: _) => isWordChar c
  | _ => false

/-- `re.search(r"созвон с \w+", ·)` at this position. -/
def matchSyncWith (cs : List Char) : Bool :=
  match dropLit "созвон с ".data cs with
  | some (c :: _) => isWordChar c
  | _ => false

/-- One of the seven `simple_patterns` of `_analyze_complexity`
(director.py lines 240-250) matches somewhere in the lowered text. -/
def simplePatternFound (lower : List Char) : Bool :=
  anySuffix
    (fun suf =>
      matchTomorrowAt suf || matchTodayAt suf || matchAtColonTime suf ||
        matchAtHourWord suf || matchMeetingWith suf || matchCallName suf ||
        matchSyncWith suf)
    lower

/-- The `complex_indicators` keyword list (director.py lines 262-267). -/
def complexIndicators : List String :=
  ["если", "когда", "после того как", "при условии",
   "перенести", "сдвинуть", "изменить время",
   "каждый", "еженедельно", "ежемесячно",
   "напомни", "за час до", "за день до"]

/-- `complexity_score`: how many complex indicators occur in the lowered
text (director.py line 269). -/
def countIndicators (lower : List Char) : Nat :=
  (complexIndicators.filter (fun ind => containsSub ind.data lower)).length

/-- `AIDirector._analyze_complexity` (director.py lines 230-276): simple
patterns first (long texts demoted to medium), else score the complex
indicators. -/
def analyze_complexity (text : String) : String :=
  let lower := (pyLower text).data
  if simplePatternFound lower then
    if text.length > 200 then "medium" else "simple"
  else
    let score := countIndicators lower
    if 2 ≤ score then "complex"
    else if score = 1 ∨ text.length > 150 then "medium"
    else "simple"

/-- `AIDirector.GPT_LIMIT_HOUR`. -/
def GPT_LIMIT_HOUR : Nat := 50

/-- `AIDirector.GPT_LIMIT_DAY`. -/
def GPT_LIMIT_DAY : Nat := 200

/-- `AIDirector.WHISPER_LIMIT_HOUR`. -/
def WHISPER_LIMIT_HOUR : Nat := 20

/-- `AIDirector.WHISPER_LIMIT_DAY`. -/
def WHISPER_LIMIT_DAY : Nat := 100

/-- `AIDirector.decide_parsing_mode` (director.py lines 97-173): both
quota counters are touched first (each check also increments), then the
decision ladder runs on the two allowed flags, the complexity class and
the forwarded flag.  Early `return`s in the source all leave the store in
the same post-check state, so the store is returned once. -/
def decide_parsing_mode (s : RedisState) (userId : Nat) (messageText : String)
    (isVoice isForwarded : Bool) (now : Nat) : DirectorDecision × RedisState :=
  let hourRes := check_rate_limit s ("gpt:hour:" ++ toString userId) GPT_LIMIT_HOUR 3600 now
  let gptAllowed := hourRes.1.1
  let gptRemaining := hourRes.1.2
  let dayRes := check_rate_limit hourRes.2 ("gpt:day:" ++ toString userId) GPT_LIMIT_DAY 86400 now
  let gptDayAllowed := dayRes.1.1
  let complexity := analyze_complexity messageText
  let decision :=
    if gptAllowed = false ∨ gptDayAllowed = false then
      { mode := ProcessingMode.LOCAL_ONLY
        reason := "Rate limit reached (remaining: " ++ toString gptRemaining ++ "/hour)"
        confidenceThreshold := 1/2 : DirectorDecision }
    else if complexity = "simple" then
      { mode := ProcessingMode.LOCAL_ONLY
        reason := "Simple message pattern detected"
        confidenceThreshold := 3/5 }
    else if complexity = "medium" then
      { mode := ProcessingMode.LOCAL_WITH_GPT_FALLBACK
        reason := "Medium complexity - local with fallback"
        confidenceThreshold := 7/10 }
    else if isForwarded = true ∨ complexity = "complex" then
      { mode := ProcessingMode.GPT_ONLY
        reason := "Complex or forwarded message"
        confidenceThreshold := 4/5
        maxTokens := 1500 }
    else
      { mode := ProcessingMode.LOCAL_WITH_GPT_FALLBACK
        reason := "Default processing mode"
        confidenceThreshold := 7/10 }
  (decision, dayRes.2)

/-- `AIDirector.decide_transcription_mode` (director.py lines 175-228):
the hourly Whisper quota is checked first; only when it allows is the
daily quota checked (and incremented). -/
def decide_transcription_mode (s : RedisState) (userId : Nat)
    (audioDurationSeconds : Nat) (now : Nat) : DirectorDecision × RedisState :=
  let hourRes := check_rate_limit s ("whisper:hour:" ++ toString userId) WHISPER_LIMIT_HOUR 3600 now
  if hourRes.1.1 = false then
    ({ mode := ProcessingMode.QUEUE_FOR_LATER
       reason := "Whisper rate limit reached"
       delaySeconds := 60 }, hourRes.2)
  else
    let dayRes := check_rate_limit hourRes.2 ("whisper:day:" ++ toString userId) WHISPER_LIMIT_DAY 86400 now
    if dayRes.1.1 = false then
      ({ mode := ProcessingMode.QUEUE_FOR_LATER
         reason := "Daily Whisper limit reached"
         delaySeconds := 3600 }, dayRes.2)
    else
      ({ mode := ProcessingMode.GPT_ONLY
         reason := "Transcription allowed" }, dayRes.2)

/-! ## LLM parser (`src/api/services/parser.py`) -/

/-- JSON values as produced by `json.loads`. -/
inductive Json where
  | null
  | bool (b : Bool)
  | num (q : Rat)
  | str (s : String)
  | arr (xs : List Json)
  | obj (fields : List (String × Json))

/-- The Python exceptions distinguished by the embedding of
`parse_message`: `TypeError`/`ValueError` from the `float`/`int`
conversions, `AttributeError` from attribute access on a non-dict, and
pydantic `ValidationError` from `ParsedContentResponse` construction. -/
inductive PyErr where
  | typeErr
  | valueErr
  | attributeErr
  | validationErr
deriving DecidableEq

/-- Python `dict.get(key, default)` on a decoded JSON object. -/
def jGet (fields : List (String × Json)) (key : String) (default : Json) : Json :=
  match fields.lookup key with
  | some v => v
  | none => default

/-- Python truthiness of a JSON value (`if not value`). -/
def pyTruthy : Json → Bool
  | Json.null => false
  | Json.bool b => b
  | Json.num q => q ≠ 0
  | Json.str s => s ≠ ""
  | Json.arr xs => !xs.isEmpty
  | Json.obj fields => !fields.isEmpty

/-- Drop leading whitespace characters. -/
def dropLeadingWS : List Char → List Char
  | [] => []
  | c :: cs => if c.isWhitespace then dropLeadingWS cs else c :: cs

/-- Python `str.strip()`: remove leading and trailing whitespace. -/
def pyStrip (s : String) : String :=
  String.mk ((dropLeadingWS (dropLeadingWS s.data).reverse).reverse)

/-- Python `split(".")` on a character list. -/
def splitOnDot : List Char → List Char → List (List Char)
  | [], acc => [acc.reverse]
  | c :: cs, acc =>
    if c = '.' then acc.reverse :: splitOnDot cs [] else splitOnDot cs (c :: acc)

/-- Parse an optional sign followed by digits, as `Option Int`;
helper for the string cases of Python `float`/`int`. -/
def parseSignedDigits (cs : List Char) : Option (Bool × Nat) :=
  match cs with
  | '-' :: rest => if rest.all Char.isDigit ∧ rest ≠ [] then some (true, rest.foldl (fun a c => a * 10 + (c.toNat - 48)) 0) else none
  | '+' :: rest => if rest.all Char.isDigit ∧ rest ≠ [] then some (false, rest.foldl (fun a c => a * 10 + (c.toNat - 48)) 0) else none
  | rest => if rest.all Char.isDigit ∧ rest ≠ [] then some (false, rest.foldl (fun a c => a * 10 + (c.toNat - 48)) 0) else none

/-- Python `float(str)` restricted to plain decimal literals
`[+-]digits[.digits]` (the source's model responses carry plain decimals;
exponents, `inf`/`nan` and underscores are outside the model). -/
def pyFloatOfString (s : String) : Option Rat :=
  let t := (pyStrip s).data
  match splitOnDot t [] with
  | [whole] =>
    match parseSignedDigits whole with
    | some (neg, n) => some (if neg then -(n : Rat) else (n : Rat))
    | none => none
  | [whole, frac] =>
    if frac.all Char.isDigit ∧ frac ≠ [] then
      match parseSignedDigits whole with
      | some (neg, n) =>
        let fracVal : Nat := frac.foldl (fun a c => a * 10 + (c.toNat - 48)) 0
        let q : Rat := (n : Rat) + (((fracVal : Rat)) / ((10 : Rat) ^ (frac.length : Nat)))
        some (if neg then -q else q)
      | none => none
    else none
  | _ => none

/-- Python `float(x)` on a JSON value: numbers and booleans convert,
decimal strings parse, `None` and containers raise `TypeError`,
non-numeric strings raise `ValueError`. -/
def pyFloat : Json → Except PyErr Rat
  | Json.num q => Except.ok q
  | Json.bool b => Except.ok (if b then 1 else 0)
  | Json.str s =>
    match pyFloatOfString s with
    | some q => Except.ok q
    | none => Except.error PyErr.valueErr
  | Json.null => Except.error PyErr.typeErr
  | Json.arr _ => Except.error PyErr.typeErr
  | Json.obj _ => Except.error PyErr.typeErr

/-- Python `int(x)` on a JSON value: numbers truncate toward zero,
booleans convert, integer strings parse, `None` and containers raise
`TypeError`, non-integer strings raise `ValueError`. -/
def pyInt : Json → Except PyErr Int
  | Json.num q => Except.ok (if q < 0 then -((-q).floor) else q.floor)
  | Json.bool b => Except.ok (if b then 1 else 0)
  | Json.str s =>
    match parseSignedDigits (pyStrip s).data with
    | some (neg, n) => Except.ok (if neg then -(n : Int) else (n : Int))
    | none => Except.error PyErr.valueErr
  | Json.null => Except.error PyErr.typeErr
  | Json.arr _ => Except.error PyErr.typeErr
  | Json.obj _ => Except.error PyErr.typeErr

/-- Python `value.replace("Z", "+00:00")` on a character list. -/
def replaceZulu : List Char → List Char
  | [] => []
  | c :: cs =>
    if c = 'Z' then '+' :: '0' :: '0' :: ':' :: '0' :: '0' :: replaceZulu cs
    else c :: replaceZulu cs

/-- `_parse_datetime` (parser.py lines 172-179), parametric in the
external `datetime.fromisoformat` (`fromIso`, returning the parsed
datetime as a normalized string, `none` on `ValueError`): falsy values
give `None`, non-strings hit the caught `AttributeError`, strings are
parsed after replacing `"Z"` with `"+00:00"`. -/
def parseDatetimeField (fromIso : String → Option String) (j : Json) : Option String :=
  if pyTruthy j = false then none
  else
    match j with
    | Json.str s => fromIso (String.mk (replaceZulu s.data))
    | _ => none

/-- `ParsedContentResponse` (api/models/responses.py lines 82-101), with
floats as rationals and datetimes as normalized ISO strings. -/
structure ParsedContentResponse where
  content_type : String
  confidence : Rat
  title : Option String := none
  start_datetime : Option String := none
  end_datetime : Option String := none
  duration_minutes : Int := 60
  location : Option String := none
  participants : List String := []
  note_title : Option String := none
  note_content : Option String := none
  clarification_needed : Option String := none

/-- Pydantic coercion of an optional-string field: `null` and strings
pass, anything else is a `ValidationError`. -/
def asOptStr : Json → Except PyErr (Option String)
  | Json.null => Except.ok none
  | Json.str s => Except.ok (some s)
  | _ => Except.error PyErr.validationErr

/-- Pydantic coercion of a `list[str]` field. -/
def asStrList : Json → Except PyErr (List String)
  | Json.arr xs =>
    xs.mapM (fun j =>
      match j with
      | Json.str s => Except.ok s
      | _ => Except.error PyErr.validationErr)
  | _ => Except.error PyErr.validationErr

/-- Python `split("```")` on a character list: greedy left-to-right split
on triple-backtick separators, with `acc` holding the current segment in
reverse. -/
def splitFenceAux : Nat → List Char → List Char → List (List Char)
  | _, [], acc => [acc.reverse]
  | 0, cs, acc => [acc.reverse ++ cs]
  | fuel + 1, c :: rest, acc =>
    match rest with
    | c2 :: c3 :: rest3 =>
      if c.toNat = 96 ∧ c2.toNat = 96 ∧ c3.toNat = 96 then
        acc.reverse :: splitFenceAux fuel rest3 []
      else splitFenceAux fuel rest (c :: acc)
    | _ => splitFenceAux fuel rest (c :: acc)

/-- Python `split("```")` on a character list (see `splitFenceAux`; the
fuel equals the input length, so the exhaustion case is unreachable). -/
def splitFence (cs : List Char) (acc : List Char) : List (List Char) :=
  splitFenceAux cs.length cs acc

/-- The model-response cleanup of `parse_message` (parser.py lines
133-140): strip, then when the text starts with a code fence take the
first fenced segment (`split("```")[1]`), drop a leading `json` tag and
strip again. -/
def cleanResponseText (s : String) : String :=
  let t := pyStrip s
  if "```".data.isPrefixOf t.data then
    let seg : List Char := ((splitFence t.data []).get? 1).getD []
    let seg := if "json".data.isPrefixOf seg then seg.drop 4 else seg
    pyStrip (String.mk seg)
  else t

/-- The fallback result built in the `json.JSONDecodeError` handler of
`parse_message` (parser.py lines 160-166). -/
def unclearFallback : ParsedContentResponse :=
  { content_type := "unclear"
    confidence := 0
    clarification_needed := some "Failed to parse your message. Please try again." }

/-- `parse_message` (parser.py lines 89-169) from the model-response text
onward, parametric in the strict JSON decoder (`json.loads`, `none` on
`JSONDecodeError`) and the ISO-datetime parser.  A decode failure returns
the terminal `unclear` result; failures of the field conversions
(`float`, `int`, attribute access, pydantic validation) re-raise and are
returned as `Except.error`. -/
def parse_message (decode : String → Option Json) (fromIso : String → Option String)
    (responseText : String) : Except PyErr ParsedContentResponse :=
  let resultText := cleanResponseText responseText
  match decode resultText with
  | none => Except.ok unclearFallback
  | some parsedData =>
    match parsedData with
    | Json.obj fields => do
      let ct := jGet fields "content_type" (Json.str "unclear")
      let conf ← pyFloat (jGet fields "confidence" (Json.num (1/2)))
      let startDt := parseDatetimeField fromIso (jGet fields "start_datetime" Json.null)
      let endDt := parseDatetimeField fromIso (jGet fields "end_datetime" Json.null)
      let dur ← pyInt (jGet fields "duration_minutes" (Json.num 60))
      let ctStr ← (match ct with
        | Json.str s => Except.ok s
        | _ => Except.error PyErr.validationErr)
      if (ctStr = "event" ∨ ctStr = "note" ∨ ctStr = "reminder" ∨ ctStr = "unclear") = False then
        Except.error PyErr.validationErr
      else if conf < 0 ∨ 1 < conf then
        Except.error PyErr.validationErr
      else do
        let title ← asOptStr (jGet fields "title" Json.null)
        let loc ← asOptStr (jGet fields "location" Json.null)
        let parts ← asStrList (jGet fields "participants" (Json.arr []))
        let noteContent ← asOptStr (jGet fields "note_content" Json.null)
        let clar ← asOptStr (jGet fields "clarification_needed" Json.null)
        Except.ok
          { content_type := ctStr
            confidence := conf
            title := title
            start_datetime := startDt
            end_datetime := endDt
            duration_minutes := dur
            location := loc
            participants := parts
            note_title := title
            note_content := noteContent
            clarification_needed := clar }
    | _ => Except.error PyErr.attributeErr

/-! ## Local date anchoring (`src/api/services/date_parser.py`) -/

/-- The time-only branch of `parse_date_local` (date_parser.py lines
293-304), with timezone-local datetimes as whole minutes since an epoch
(1440 minutes per day): `now.replace(hour=h, minute=m, second=0,
microsecond=0)` keeps today's date and sets the time of day; if that
instant is not strictly in the future, one day is added. -/
def anchor_explicit_time (now : Nat) (hour minute : Nat) : Nat :=
  let start := now / 1440 * 1440 + (hour * 60 + minute)
  if start ≤ now then start + 1440 else start

/-! ## Background job idempotency (`src/workers/jobs.py`) -/

/-- An idempotency-cache entry: the stored creation response and its
absolute expiry time in seconds. -/
structure CacheEntry where
  value : Json
  expiresAt : Nat

/-- The idempotency key/value store (`redis` in the ARQ context), an
association list with shadowing; values are kept as parsed JSON — the
`json.dumps`/`json.loads` round trip of the stored response is the
identity on JSON values. -/
def KVStore := List (String × CacheEntry)

/-- Redis `GET` with lazy expiry. -/
def kvGet (kv : KVStore) (k : String) (now : Nat) : Option Json :=
  match kv.lookup k with
  | some e => if now < e.expiresAt then some e.value else none
  | none => none

/-- Redis `SETEX key ttl value`. -/
def kvSetex (kv : KVStore) (k : String) (v : Json) (ttl now : Nat) : KVStore :=
  (k, ⟨v, now + ttl⟩) :: kv

/-- `_generate_idempotency_key` (jobs.py lines 21-32): a stable key from
the user id, the title and the start time.  The `sort_keys` JSON dump
followed by the MD5 hex digest is modelled by the canonical dump itself —
an injective stand-in for the hash. -/
def generate_idempotency_key (userId title startDatetime : String) : String :=
  "event:" ++ "start=" ++ startDatetime ++ ";title=" ++ title ++ ";user_id=" ++ userId

/-- The environment of one `create_calendar_event` run: whether the user
row exists, the provider of the first active calendar integration (if
any), and the outcome of the `i`-th connector `create_event` call
(`Except.error` models an exception from `authenticate`/`create_event`). -/
structure JobEnv where
  userExists : Bool
  integrationProvider : Option String
  connectorResult : Nat → Except String Json

/-- The mutable state threaded through `create_calendar_event`: the
idempotency store (`none` when the ARQ context has no redis) and the
number of connector `create_event` invocations performed so far. -/
structure JobState where
  redis : Option KVStore
  connectorCalls : Nat

/-- The `{"error": ..., "success": False}` dictionaries returned on every
failure path of `create_calendar_event`. -/
def errorResponse (msg : String) : Json :=
  Json.obj [("error", Json.str msg), ("success", Json.bool false)]

/-- The provider filter of the integration query (jobs.py line 86). -/
def knownCalendarProviders : List String :=
  ["google_calendar", "outlook", "apple_calendar", "yandex_calendar"]

/-- Does a creation response signal success (`{"success": True, ...}`)? -/
def is_success (j : Json) : Bool :=
  match j with
  | Json.obj fields =>
    match fields.lookup "success" with
    | some (Json.bool true) => true
    | _ => false
  | _ => false

/-- `create_calendar_event` (jobs.py lines 35-156): consult the
idempotency cache first and return a hit unchanged; otherwise look up the
user and integration, invoke the provider connector (all four providers
behave identically at this granularity), and cache the response for 3600
seconds only after a successful creation.  Exceptions anywhere in the
`try` block become `{"error": ..., "success": False}` responses. -/
def create_calendar_event (env : JobEnv) (st : JobState) (now : Nat)
    (userId title startDatetime : String) : Json × JobState :=
  let key := generate_idempotency_key userId title startDatetime
  let cached :=
    match st.redis with
    | some kv => kvGet kv key now
    | none => none
  match cached with
  | some existing => (existing, st)
  | none =>
    if env.userExists = false then (errorResponse "User not found", st)
    else
      match env.integrationProvider with
      | none => (errorResponse "No calendar integration found", st)
      | some provider =>
        if knownCalendarProviders.contains provider then
          match env.connectorResult st.connectorCalls with
          | Except.error e =>
            (errorResponse e, { st with connectorCalls := st.connectorCalls + 1 })
          | Except.ok result =>
            let response := Json.obj [("success", Json.bool true), ("event", result)]
            let st1 : JobState := { st with connectorCalls := st.connectorCalls + 1 }
            match st1.redis with
            | some kv =>
              (response, { st1 with redis := some (kvSetex kv key response 3600 now) })
            | none => (response, st1)
        else (errorResponse ("Unknown provider: " ++ provider), st)


/-! ## Spec-side claim statements (for refutation) -/

/-- The sliding-window property asserted by the spec for the rate limiter
(spec §8, claim C2): for any nondecreasing call-time sequence, the
`(N+1)`-th call of any `N+1` consecutive calls lying within one `W`-second
sliding period is refused.  Stated from the spec's words, to be compared
with the behaviour of `runLimiter`. -/
def slidingWindowProperty (N W : Nat) : Prop :=
  ∀ (key : String) (times : List Nat), times.Chain' (· ≤ ·) →
    ∀ (i : Nat) (ti tj : Nat) (r : Bool × Int),
      times.get? i = some ti →
      times.get? (i + N) = some tj →
      tj < ti + W →
      (runLimiter ⟨[]⟩ key N W times).1.get? (i + N) = some r →
      r.1 = false

/-- The counter invariant asserted by the spec (spec §3, claim C3): after
any sequence of `check_rate_limit` calls within one window (all later
calls inside the window opened by the first call), the stored count never
exceeds `max_requests + 1`.  Stated from the spec's words. -/
def claimedCountInvariant (N W : Nat) : Prop :=
  ∀ (key : String) (t0 : Nat) (ts : List Nat),
    (∀ t ∈ ts, t < t0 + W) →
    storedCount (runLimiter ⟨[]⟩ key N W (t0 :: ts)).2 ("rate:" ++ key) ≤ N + 1

/-- The complexity decision table asserted by claim C7, read clause by
clause (score ≥ 2 → complex; score = 1 or length > 150 → medium; simple
pattern and length ≤ 200 → simple; every other case → medium).  Stated
from the claim's words, to be compared with `analyze_complexity`. -/
def claimedComplexityTable (text : String) : Prop :=
  (2 ≤ countIndicators (pyLower text).data → analyze_complexity text = "complex")
  ∧ (countIndicators (pyLower text).data = 1 ∨ 150 < text.length →
      analyze_complexity text = "medium")
  ∧ (simplePatternFound (pyLower text).data = true ∧ text.length ≤ 200 →
      analyze_complexity text = "simple")
  ∧ (¬ 2 ≤ countIndicators (pyLower text).data →
      ¬ (countIndicators (pyLower text).data = 1 ∨ 150 < text.length) →
      ¬ (simplePatternFound (pyLower text).data = true ∧ text.length ≤ 200) →
      analyze_complexity text = "medium")

/-! ## Store lemmas -/

theorem lookup_setCounter_self (s : RedisState) (k : String) (c : Counter) :
    (setCounter s k c).counters.lookup k = some c := by
  simp [setCounter, List.lookup]

theorem lookup_setCounter_ne (s : RedisState) (k k' : String) (c : Counter)
    (h : k' ≠ k) : (setCounter s k c).counters.lookup k' = s.counters.lookup k' := by
  simp [setCounter, List.lookup, beq_eq_false_iff_ne.mpr h]

theorem liveCounter_some_cases (s : RedisState) (k : String) (now : Nat) (c : Counter)
    (h : liveCounter s k now = some c) :
    s.counters.lookup k = some c ∧
      (c.expiresAt = none ∨ ∃ e, c.expiresAt = some e ∧ now < e) := by
  unfold liveCounter at h
  cases hlk : s.counters.lookup k with
  | none => rw [hlk] at h; exact absurd h (by simp)
  | some c' =>
    rw [hlk] at h
    dsimp only at h
    cases he : c'.expiresAt with
    | none =>
      rw [he] at h
      dsimp only at h
      injection h with h'
      subst h'
      exact ⟨rfl, Or.inl he⟩
    | some e =>
      rw [he] at h
      dsimp only at h
      by_cases hlt : now < e
      · rw [if_pos hlt] at h
        injection h with h'
        subst h'
        exact ⟨rfl, Or.inr ⟨e, he, hlt⟩⟩
      · rw [if_neg hlt] at h
        exact absurd h (by simp)

theorem observedCount_setCounter_self (S : RedisState) (k : String) (c : Counter)
    (now : Nat) :
    observedCount (setCounter S k c) k now
      = match c.expiresAt with
        | some e => if now < e then c.count else 0
        | none => c.count := by
  unfold observedCount liveCounter
  rw [lookup_setCounter_self]
  cases he : c.expiresAt with
  | none => simp [he]
  | some e =>
    by_cases hlt : now < e
    · simp [he, hlt]
    · simp [he, hlt]

theorem observedCount_setCounter_ne (S : RedisState) (k k' : String) (c : Counter)
    (now : Nat) (h : k' ≠ k) :
    observedCount (setCounter S k c) k' now = observedCount S k' now := by
  unfold observedCount liveCounter
  rw [lookup_setCounter_ne _ _ _ _ h]

theorem observedCount_check_self (s : RedisState) (key : String) (maxR w now : Nat)
    (hw : 0 < w) :
    observedCount (check_rate_limit s key maxR w now).2 ("rate:" ++ key) now
      = observedCount s ("rate:" ++ key) now + 1 := by
  simp only [check_rate_limit]
  cases hl : liveCounter s ("rate:" ++ key) now with
  | none =>
    have h0 : observedCount s ("rate:" ++ key) now = 0 := by
      unfold observedCount; rw [hl]
    rw [h0]
    have hincr : incr s ("rate:" ++ key) now
        = (1, setCounter s ("rate:" ++ key) ⟨1, none⟩) := by
      unfold incr; rw [hl]
    rw [hincr]
    dsimp only
    rw [if_pos rfl]
    have hexp2 : expire (setCounter s ("rate:" ++ key) ⟨1, none⟩) ("rate:" ++ key) w now
        = setCounter (setCounter s ("rate:" ++ key) ⟨1, none⟩) ("rate:" ++ key)
            ⟨1, some (now + w)⟩ := by
      unfold expire; rw [lookup_setCounter_self]
    rw [hexp2, observedCount_setCounter_self]
    simp [Nat.lt_add_of_pos_right hw]
  | some c =>
    obtain ⟨hlk, hexp⟩ := liveCounter_some_cases s ("rate:" ++ key) now c hl
    have h0 : observedCount s ("rate:" ++ key) now = c.count := by
      unfold observedCount; rw [hl]
    rw [h0]
    have hincr : incr s ("rate:" ++ key) now
        = (c.count + 1, setCounter s ("rate:" ++ key) ⟨c.count + 1, c.expiresAt⟩) := by
      unfold incr; rw [hl]
    rw [hincr]
    dsimp only
    by_cases h1 : c.count + 1 = 1
    · rw [if_pos h1]
      have hexp2 : expire (setCounter s ("rate:" ++ key) ⟨c.count + 1, c.expiresAt⟩)
            ("rate:" ++ key) w now
          = setCounter (setCounter s ("rate:" ++ key) ⟨c.count + 1, c.expiresAt⟩)
              ("rate:" ++ key) ⟨c.count + 1, some (now + w)⟩ := by
        unfold expire; rw [lookup_setCounter_self]
      rw [hexp2, observedCount_setCounter_self]
      simp [Nat.lt_add_of_pos_right hw]
    · rw [if_neg h1, observedCount_setCounter_self]
      rcases hexp with hnone | ⟨e, he, hlt⟩
      · rw [hnone]
      · rw [he]
        dsimp only
        rw [if_pos hlt]

theorem observedCount_check_other (s : RedisState) (key k' : String) (maxR w now : Nat)
    (h : k' ≠ "rate:" ++ key) :
    observedCount (check_rate_limit s key maxR w now).2 k' now
      = observedCount s k' now := by
  simp only [check_rate_limit]
  cases hl : liveCounter s ("rate:" ++ key) now with
  | none =>
    have hincr : incr s ("rate:" ++ key) now
        = (1, setCounter s ("rate:" ++ key) ⟨1, none⟩) := by
      unfold incr; rw [hl]
    rw [hincr]
    dsimp only
    rw [if_pos rfl]
    have hexp2 : expire (setCounter s ("rate:" ++ key) ⟨1, none⟩) ("rate:" ++ key) w now
        = setCounter (setCounter s ("rate:" ++ key) ⟨1, none⟩) ("rate:" ++ key)
            ⟨1, some (now + w)⟩ := by
      unfold expire; rw [lookup_setCounter_self]
    rw [hexp2, observedCount_setCounter_ne _ _ _ _ _ h,
      observedCount_setCounter_ne _ _ _ _ _ h]
  | some c =>
    have hincr : incr s ("rate:" ++ key) now
        = (c.count + 1, setCounter s ("rate:" ++ key) ⟨c.count + 1, c.expiresAt⟩) := by
      unfold incr; rw [hl]
    rw [hincr]
    dsimp only
    by_cases h1 : c.count + 1 = 1
    · rw [if_pos h1]
      have hexp2 : expire (setCounter s ("rate:" ++ key) ⟨c.count + 1, c.expiresAt⟩)
            ("rate:" ++ key) w now
          = setCounter (setCounter s ("rate:" ++ key) ⟨c.count + 1, c.expiresAt⟩)
              ("rate:" ++ key) ⟨c.count + 1, some (now + w)⟩ := by
        unfold expire; rw [lookup_setCounter_self]
      rw [hexp2, observedCount_setCounter_ne _ _ _ _ _ h,
        observedCount_setCounter_ne _ _ _ _ _ h]
    · rw [if_neg h1, observedCount_setCounter_ne _ _ _ _ _ h]

theorem rate_hour_ne_day_key (u : String) :
    ("rate:" ++ ("gpt:hour:" ++ u)) ≠ ("rate:" ++ ("gpt:day:" ++ u)) := by
  intro h
  have hlen := congrArg String.length h
  rw [String.length_append, String.length_append, String.length_append,
    String.length_append] at hlen
  have e1 : ("rate:").length = 5 := by decide
  have e2 : ("gpt:hour:").length = 9 := by decide
  have e3 : ("gpt:day:").length = 8 := by decide
  omega

theorem rate_day_ne_hour_key (u : String) :
    ("rate:" ++ ("gpt:day:" ++ u)) ≠ ("rate:" ++ ("gpt:hour:" ++ u)) := by
  intro h
  exact rate_hour_ne_day_key u h.symm

/-- Claim C9: every `decide_parsing_mode` call (with the store reachable)
increments both the hourly and the daily LLM-quota counters of the user by
exactly one, whatever decision is returned — querying the quota is itself
an increment. -/
theorem C9_decide_parsing_mode_increments_both_quotas (s : RedisState) (uid : Nat)
    (text : String) (isVoice isForwarded : Bool) (now : Nat) :
    observedCount (decide_parsing_mode s uid text isVoice isForwarded now).2
        ("rate:" ++ ("gpt:hour:" ++ toString uid)) now
      = observedCount s ("rate:" ++ ("gpt:hour:" ++ toString uid)) now + 1
    ∧ observedCount (decide_parsing_mode s uid text isVoice isForwarded now).2
        ("rate:" ++ ("gpt:day:" ++ toString uid)) now
      = observedCount s ("rate:" ++ ("gpt:day:" ++ toString uid)) now + 1 := by
  have hsnd : (decide_parsing_mode s uid text isVoice isForwarded now).2
      = (check_rate_limit
          (check_rate_limit s ("gpt:hour:" ++ toString uid) GPT_LIMIT_HOUR 3600 now).2
          ("gpt:day:" ++ toString uid) GPT_LIMIT_DAY 86400 now).2 := rfl
  rw [hsnd]
  constructor
  · rw [observedCount_check_other _ _ _ _ _ _ (rate_hour_ne_day_key (toString uid)),
      observedCount_check_self _ _ _ _ _ (by omega)]
  · rw [observedCount_check_self _ _ _ _ _ (by omega),
      observedCount_check_other _ _ _ _ _ _ (rate_day_ne_hour_key (toString uid))]

/-- Claim C1: whenever the hourly or the daily LLM quota check reports
not-allowed, `decide_parsing_mode` returns mode `LOCAL_ONLY` with
confidence threshold 0.5, regardless of the message text (hence of its
complexity class) and of the forwarded flag. -/
theorem C1_quota_exhausted_forces_local_only (s : RedisState) (uid : Nat)
    (text : String) (isVoice isForwarded : Bool) (now : Nat)
    (h : (check_rate_limit s ("gpt:hour:" ++ toString uid) GPT_LIMIT_HOUR 3600 now).1.1 = false
      ∨ (check_rate_limit
          (check_rate_limit s ("gpt:hour:" ++ toString uid) GPT_LIMIT_HOUR 3600 now).2
          ("gpt:day:" ++ toString uid) GPT_LIMIT_DAY 86400 now).1.1 = false) :
    (decide_parsing_mode s uid text isVoice isForwarded now).1.mode
        = ProcessingMode.LOCAL_ONLY
    ∧ (decide_parsing_mode s uid text isVoice isForwarded now).1.confidenceThreshold
        = 1/2 := by
  simp only [decide_parsing_mode]
  rw [if_pos h]
  exact ⟨rfl, rfl⟩

theorem C1_quota_exhausted_forces_local_only_witness :
    (decide_parsing_mode ⟨[("rate:gpt:hour:7", ⟨50, some 10⟩)]⟩ 7 "перенести встречу если получится" false true 0).1.mode
        = ProcessingMode.LOCAL_ONLY
    ∧ (decide_parsing_mode ⟨[("rate:gpt:hour:7", ⟨50, some 10⟩)]⟩ 7 "перенести встречу если получится" false true 0).1.confidenceThreshold
        = 1/2 :=
  C1_quota_exhausted_forces_local_only ⟨[("rate:gpt:hour:7", ⟨50, some 10⟩)]⟩ 7
    "перенести встречу если получится" false true 0 (Or.inl (by decide))

/-- Claim C8: `decide_transcription_mode` returns QUEUE_FOR_LATER with a
60-second delay when the hourly Whisper quota check refuses, QUEUE_FOR_LATER
with a 3600-second delay when the hourly check allows but the daily check
refuses, and the LLM-only mode (`GPT_ONLY`) when both allow. -/
theorem C8_decide_transcription_mode_cases (s : RedisState) (uid dur now : Nat) :
    ((check_rate_limit s ("whisper:hour:" ++ toString uid) WHISPER_LIMIT_HOUR 3600 now).1.1 = false →
      (decide_transcription_mode s uid dur now).1.mode = ProcessingMode.QUEUE_FOR_LATER
      ∧ (decide_transcription_mode s uid dur now).1.delaySeconds = 60)
    ∧ ((check_rate_limit s ("whisper:hour:" ++ toString uid) WHISPER_LIMIT_HOUR 3600 now).1.1 = true →
        ((check_rate_limit
            (check_rate_limit s ("whisper:hour:" ++ toString uid) WHISPER_LIMIT_HOUR 3600 now).2
            ("whisper:day:" ++ toString uid) WHISPER_LIMIT_DAY 86400 now).1.1 = false →
          (decide_transcription_mode s uid dur now).1.mode = ProcessingMode.QUEUE_FOR_LATER
          ∧ (decide_transcription_mode s uid dur now).1.delaySeconds = 3600)
        ∧ ((check_rate_limit
            (check_rate_limit s ("whisper:hour:" ++ toString uid) WHISPER_LIMIT_HOUR 3600 now).2
            ("whisper:day:" ++ toString uid) WHISPER_LIMIT_DAY 86400 now).1.1 = true →
          (decide_transcription_mode s uid dur now).1.mode = ProcessingMode.GPT_ONLY)) := by
  refine ⟨fun h1 => ?_, fun h1 => ⟨fun h2 => ?_, fun h2 => ?_⟩⟩
  · simp only [decide_transcription_mode]
    rw [if_pos h1]
    exact ⟨rfl, rfl⟩
  · simp only [decide_transcription_mode]
    rw [if_neg (by rw [h1]; simp), if_pos h2]
    exact ⟨rfl, rfl⟩
  · simp only [decide_transcription_mode]
    rw [if_neg (by rw [h1]; simp), if_neg (by rw [h2]; simp)]

theorem C8_decide_transcription_mode_cases_witness :
    (decide_transcription_mode ⟨[("rate:whisper:hour:3", ⟨20, some 50⟩)]⟩ 3 30 0).1.mode
        = ProcessingMode.QUEUE_FOR_LATER
    ∧ (decide_transcription_mode ⟨[("rate:whisper:hour:3", ⟨20, some 50⟩)]⟩ 3 30 0).1.delaySeconds
        = 60 :=
  (C8_decide_transcription_mode_cases ⟨[("rate:whisper:hour:3", ⟨20, some 50⟩)]⟩ 3 30 0).1
    (by decide)

theorem check_in_window (s : RedisState) (key : String) (N W t c e : Nat)
    (hc : 1 ≤ c)
    (hs : s.counters.lookup ("rate:" ++ key) = some ⟨c, some e⟩)
    (ht : t < e) :
    check_rate_limit s key N W t
      = ((decide (c + 1 ≤ N), max 0 ((N : Int) - ((c + 1 : Nat) : Int))),
          setCounter s ("rate:" ++ key) ⟨c + 1, some e⟩) := by
  simp only [check_rate_limit]
  have hlive : liveCounter s ("rate:" ++ key) t = some ⟨c, some e⟩ := by
    unfold liveCounter
    rw [hs]
    dsimp only
    rw [if_pos ht]
  have hincr : incr s ("rate:" ++ key) t
      = (c + 1, setCounter s ("rate:" ++ key) ⟨c + 1, some e⟩) := by
    unfold incr; rw [hlive]
  rw [hincr]
  dsimp only
  rw [if_neg (by omega)]

theorem check_fresh_key (s : RedisState) (key : String) (N W t : Nat)
    (hdead : liveCounter s ("rate:" ++ key) t = none) :
    check_rate_limit s key N W t
      = ((decide (1 ≤ N), max 0 ((N : Int) - ((1 : Nat) : Int))),
          setCounter (setCounter s ("rate:" ++ key) ⟨1, none⟩) ("rate:" ++ key)
            ⟨1, some (t + W)⟩) := by
  simp only [check_rate_limit]
  have hincr : incr s ("rate:" ++ key) t
      = (1, setCounter s ("rate:" ++ key) ⟨1, none⟩) := by
    unfold incr; rw [hdead]
  rw [hincr]
  dsimp only
  rw [if_pos rfl]
  unfold expire
  rw [lookup_setCounter_self]

theorem runLimiter_in_window (key : String) (N W : Nat) (ts : List Nat) :
    ∀ (s : RedisState) (c e : Nat), 1 ≤ c →
    s.counters.lookup ("rate:" ++ key) = some ⟨c, some e⟩ →
    (∀ t ∈ ts, t < e) →
    (runLimiter s key N W ts).1
      = (List.range ts.length).map
          (fun i => (decide (c + i + 1 ≤ N), max 0 ((N : Int) - ((c + i + 1 : Nat) : Int))))
    ∧ (runLimiter s key N W ts).2.counters.lookup ("rate:" ++ key)
        = some ⟨c + ts.length, some e⟩ := by
  induction ts with
  | nil =>
    intro s c e hc hs hts
    simp [runLimiter, hs]
  | cons t ts ih =>
    intro s c e hc hs hts
    have ht : t < e := hts t (List.mem_cons_self _ _)
    have hstep := check_in_window s key N W t c e hc hs ht
    simp only [runLimiter, hstep]
    obtain ⟨ih1, ih2⟩ := ih (setCounter s ("rate:" ++ key) ⟨c + 1, some e⟩) (c + 1) e
      (by omega) (lookup_setCounter_self _ _ _)
      (fun u hu => hts u (List.mem_cons_of_mem _ hu))
    refine ⟨?_, ?_⟩
    · rw [ih1]
      show _ = (List.range (ts.length + 1)).map _
      rw [List.range_succ_eq_map, List.map_cons, List.map_map]
      refine congrArg₂ List.cons rfl ?_
      apply List.map_congr_left
      intro i _hi
      have harith : c + 1 + i + 1 = c + (i + 1) + 1 := by omega
      simp only [Function.comp_apply]
      rw [harith]
    · rw [ih2]
      have harith : c + 1 + ts.length = c + (ts.length + 1) := by omega
      rw [harith]
      rfl

theorem runLimiter_from_empty (key : String) (N W t0 : Nat) (ts : List Nat)
    (hts : ∀ t ∈ ts, t < t0 + W) :
    (runLimiter ⟨[]⟩ key N W (t0 :: ts)).1
      = (List.range (ts.length + 1)).map
          (fun i => (decide (i + 1 ≤ N), max 0 ((N : Int) - ((i + 1 : Nat) : Int))))
    ∧ (runLimiter ⟨[]⟩ key N W (t0 :: ts)).2.counters.lookup ("rate:" ++ key)
        = some ⟨ts.length + 1, some (t0 + W)⟩ := by
  have hdead : liveCounter ⟨[]⟩ ("rate:" ++ key) t0 = none := by
    unfold liveCounter
    simp [List.lookup]
  have hstep := check_fresh_key ⟨[]⟩ key N W t0 hdead
  simp only [runLimiter, hstep]
  obtain ⟨ih1, ih2⟩ := runLimiter_in_window key N W ts
    (setCounter (setCounter ⟨[]⟩ ("rate:" ++ key) ⟨1, none⟩) ("rate:" ++ key)
      ⟨1, some (t0 + W)⟩) 1 (t0 + W) (le_refl 1) (lookup_setCounter_self _ _ _) hts
  refine ⟨?_, ?_⟩
  · rw [ih1]
    show _ = (List.range (ts.length + 1)).map _
    rw [List.range_succ_eq_map, List.map_cons, List.map_map]
    refine congrArg₂ List.cons rfl ?_
    apply List.map_congr_left
    intro i _hi
    have harith : 1 + i + 1 = i + 1 + 1 := by omega
    simp only [Function.comp_apply]
    rw [harith]
  · rw [ih2]
    have harith : 1 + ts.length = ts.length + 1 := by omega
    rw [harith]

theorem countP_range_le (N : Nat) : ∀ n,
    (List.range n).countP (fun i => decide (i + 1 ≤ N)) = min n N := by
  intro n
  induction n with
  | zero => simp
  | succ n ih =>
    rw [List.range_succ, List.countP_append, ih]
    by_cases h : n + 1 ≤ N
    · simp [List.countP_cons, h]
      omega
    · simp [List.countP_cons, h]
      omega

/-- Claim C2 counterexample: the sliding-window reading is false for the
code.  With `N = 2`, `W = 10` and calls at times 0, 9, 10, 11, the calls at
9, 10 and 11 are three calls inside one 10-second sliding period, yet the
call at 11 is allowed: the counter expired at time 10 and a fresh window
began, because the window is anchored at the counter-creating call, not
sliding. -/
theorem C2_sliding_window_counterexample : ¬ slidingWindowProperty 2 10 := by
  intro h
  have hres := h "x" [0, 9, 10, 11] (by norm_num [List.chain'_cons]) 1 9 11 (true, 0)
    (by decide) (by decide) (by decide) (by decide)
  exact absurd hres (by decide)

/-- Claim C2 (amended): the window is fixed, anchored at the call that
creates the counter.  Starting from an empty store, if every later call
time lies within `W` seconds of the first call `t0`, then the `(i+1)`-th
call is allowed exactly when `i + 1 ≤ N` — in particular the `(N+1)`-th
call is refused — and any call made at or after `t0 + W` (when at least
one request is permitted) is allowed again. -/
theorem C2_fixed_window_rate_limit (key : String) (N W t0 : Nat) (ts : List Nat)
    (i : Nat) (r : Bool × Int) (t' : Nat)
    (hts : ∀ t ∈ ts, t < t0 + W)
    (hi : (runLimiter ⟨[]⟩ key N W (t0 :: ts)).1.get? i = some r)
    (ht' : t0 + W ≤ t') (hN : 1 ≤ N) :
    r.1 = decide (i + 1 ≤ N)
    ∧ (check_rate_limit (runLimiter ⟨[]⟩ key N W (t0 :: ts)).2 key N W t').1.1 = true := by
  obtain ⟨h1, h2⟩ := runLimiter_from_empty key N W t0 ts hts
  constructor
  · rw [h1] at hi
    have hlen : i < ts.length + 1 := by
      obtain ⟨hlt, _⟩ := List.get?_eq_some.mp hi
      simpa using hlt
    rw [List.get?_map, List.get?_range hlen] at hi
    dsimp only [Option.map] at hi
    injection hi with hr
    rw [← hr]
  · have hdead : liveCounter (runLimiter ⟨[]⟩ key N W (t0 :: ts)).2 ("rate:" ++ key) t'
        = none := by
      unfold liveCounter
      rw [h2]
      dsimp only
      rw [if_neg (by omega)]
    rw [check_fresh_key _ key N W t' hdead]
    simpa using hN

theorem C2_fixed_window_rate_limit_witness :
    (∀ t ∈ ([1, 2] : List Nat), t < 0 + 10)
    ∧ ((false, 0) : Bool × Int).1 = decide ((2 : Nat) + 1 ≤ 2)
    ∧ (check_rate_limit (runLimiter ⟨[]⟩ "x" 2 10 [0, 1, 2]).2 "x" 2 10 10).1.1 = true := by
  refine ⟨by decide, ?_, ?_⟩
  · exact (C2_fixed_window_rate_limit "x" 2 10 0 [1, 2] 2 (false, 0) 10
      (by decide) (by decide) (by decide) (by decide)).1
  · exact (C2_fixed_window_rate_limit "x" 2 10 0 [1, 2] 2 (false, 0) 10
      (by decide) (by decide) (by decide) (by decide)).2

/-- Claim C3 counterexample: the stored count is not bounded by
`max_requests + 1`.  With `N = 1`, `W = 10` and four calls inside one
window (times 0, 1, 2, 3), every call increments, so the stored count
reaches 4 > 1 + 1 = 2. -/
theorem C3_count_invariant_counterexample : ¬ claimedCountInvariant 1 10 := by
  intro h
  have hres := h "x" 0 [1, 2, 3] (by decide)
  exact absurd hres (by decide)

/-- Claim C3 (amended): within one window (opened by the first call on an
empty store) the stored count equals the number of calls made — it grows
past `max_requests + 1` if calls continue — while the number of calls
reported allowed never exceeds `max_requests`: it is exactly
`min (number of calls) max_requests`. -/
theorem C3_count_equals_calls (key : String) (N W t0 : Nat) (ts : List Nat)
    (hts : ∀ t ∈ ts, t < t0 + W) :
    storedCount (runLimiter ⟨[]⟩ key N W (t0 :: ts)).2 ("rate:" ++ key) = ts.length + 1
    ∧ (runLimiter ⟨[]⟩ key N W (t0 :: ts)).1.countP (fun r => r.1)
        = min (ts.length + 1) N := by
  obtain ⟨h1, h2⟩ := runLimiter_from_empty key N W t0 ts hts
  constructor
  · unfold storedCount
    rw [h2]
  · rw [h1, List.countP_map]
    have hcomp : ((fun (r : Bool × Int) => r.1) ∘
        (fun i => (decide (i + 1 ≤ N), max 0 ((N : Int) - ((i + 1 : Nat) : Int)))))
        = fun i => decide (i + 1 ≤ N) := rfl
    rw [hcomp]
    exact countP_range_le N (ts.length + 1)

theorem C3_count_equals_calls_witness :
    (∀ t ∈ ([1, 2, 3] : List Nat), t < 0 + 10)
    ∧ storedCount (runLimiter ⟨[]⟩ "x" 1 10 [0, 1, 2, 3]).2 ("rate:" ++ "x") = 4
    ∧ (runLimiter ⟨[]⟩ "x" 1 10 [0, 1, 2, 3]).1.countP (fun r => r.1) = 1 := by
  refine ⟨by decide, ?_, ?_⟩
  · exact (C3_count_equals_calls "x" 1 10 0 [1, 2, 3] (by decide)).1
  · have h := (C3_count_equals_calls "x" 1 10 0 [1, 2, 3] (by decide)).2
    simpa using h

/-- Claim C7 counterexample: the claimed default is wrong.  The text
`"hello"` matches no simple pattern, has complexity score 0 and length 5,
so the claim's catch-all clause demands `"medium"`, but
`_analyze_complexity` returns `"simple"` in its final `else` branch. -/
theorem C7_complexity_default_counterexample :
    ¬ (∀ text, claimedComplexityTable text) := by
  intro h
  have hres := (h "hello").2.2.2 (by decide) (by decide) (by decide)
  exact absurd hres (by decide)

/-- Claim C7 (amended): the full decision table of `_analyze_complexity`.
The simple-pattern check runs first and wins (yielding `"simple"`, demoted
to `"medium"` over 200 characters); only otherwise is the indicator score
consulted: score ≥ 2 gives `"complex"`, score 1 or length over 150 gives
`"medium"`, and the default case gives `"simple"` (not `"medium"`). -/
theorem C7_analyze_complexity_characterization (text : String) :
    (analyze_complexity text = "complex"
      ↔ (simplePatternFound (pyLower text).data = false
          ∧ 2 ≤ countIndicators (pyLower text).data))
    ∧ (analyze_complexity text = "simple"
      ↔ ((simplePatternFound (pyLower text).data = true ∧ text.length ≤ 200)
          ∨ (simplePatternFound (pyLower text).data = false
              ∧ countIndicators (pyLower text).data = 0 ∧ text.length ≤ 150)))
    ∧ (analyze_complexity text = "medium"
      ↔ ((simplePatternFound (pyLower text).data = true ∧ 200 < text.length)
          ∨ (simplePatternFound (pyLower text).data = false
              ∧ countIndicators (pyLower text).data ≤ 1
              ∧ (countIndicators (pyLower text).data = 1 ∨ 150 < text.length)))) := by
  simp only [analyze_complexity]
  split_ifs with h1 h2 h3 h4 <;> simp_all <;> omega

/-- Claim C5: whenever strict JSON decoding of the cleaned model-response
text fails, `parse_message` returns (does not raise) the terminal
`unclear` result with confidence 0 and a non-empty clarification
message. -/
theorem C5_parse_message_unclear_on_decode_failure
    (decode : String → Option Json) (fromIso : String → Option String) (text : String)
    (h : decode (cleanResponseText text) = none) :
    ∃ r : ParsedContentResponse,
      parse_message decode fromIso text = Except.ok r
      ∧ r.content_type = "unclear"
      ∧ r.confidence = 0
      ∧ ∃ msg, r.clarification_needed = some msg ∧ msg ≠ "" := by
  refine ⟨unclearFallback, ?_, rfl, rfl,
    "Failed to parse your message. Please try again.", rfl, by decide⟩
  simp only [parse_message]
  rw [h]

theorem C5_parse_message_unclear_on_decode_failure_witness :
    ((fun (_ : String) => (none : Option Json)) (cleanResponseText "gibberish") = none)
    ∧ ∃ r : ParsedContentResponse,
        parse_message (fun _ => none) (fun _ => none) "gibberish" = Except.ok r
        ∧ r.content_type = "unclear"
        ∧ r.confidence = 0
        ∧ ∃ msg, r.clarification_needed = some msg ∧ msg ≠ "" :=
  ⟨rfl, C5_parse_message_unclear_on_decode_failure (fun _ => none) (fun _ => none)
    "gibberish" rfl⟩

/-- Claim C10: a model response that decodes as valid JSON but violates the
schema makes `parse_message` raise instead of returning an `unclear`
result: here the decoder yields an object whose `confidence` is JSON
`null`, so `float(None)` raises `TypeError`, which the generic handler
re-raises. -/
theorem C10_parse_message_raises_on_schema_violation :
    parse_message (fun _ => some (Json.obj [("confidence", Json.null)]))
        (fun _ => none) "schema-violating model response"
      = Except.error PyErr.typeErr := rfl

/-- Claim C6: the explicit-time-only branch of `parse_date_local` anchors
the start to today at the extracted time when that instant is still
strictly in the future, otherwise rolls it to tomorrow; for any valid
wall-clock time the result is never in the past. -/
theorem C6_anchor_explicit_time_never_past (now hour minute : Nat)
    (hh : hour < 24) (hm : minute < 60) :
    now < anchor_explicit_time now hour minute
    ∧ (now < now / 1440 * 1440 + (hour * 60 + minute) →
        anchor_explicit_time now hour minute
          = now / 1440 * 1440 + (hour * 60 + minute))
    ∧ (now / 1440 * 1440 + (hour * 60 + minute) ≤ now →
        anchor_explicit_time now hour minute
          = now / 1440 * 1440 + (hour * 60 + minute) + 1440) := by
  simp only [anchor_explicit_time]
  refine ⟨?_, ?_, ?_⟩
  · by_cases hle : now / 1440 * 1440 + (hour * 60 + minute) ≤ now
    · rw [if_pos hle]; omega
    · rw [if_neg hle]; omega
  · intro hlt
    rw [if_neg (by omega)]
  · intro hle
    rw [if_pos hle]

theorem C6_anchor_explicit_time_never_past_witness :
    (9 : Nat) < 24 ∧ (0 : Nat) < 60 ∧ 800 < anchor_explicit_time 800 9 0
    ∧ anchor_explicit_time 800 9 0 = 1980 :=
  ⟨by decide, by decide,
    (C6_anchor_explicit_time_never_past 800 9 0 (by decide) (by decide)).1, by decide⟩

theorem create_calendar_event_no_write_on_failure (env2 : JobEnv) (st2 : JobState)
    (n : Nat) (u2 t2 s2 : String) :
    is_success (create_calendar_event env2 st2 n u2 t2 s2).1 = false →
    (create_calendar_event env2 st2 n u2 t2 s2).2.redis = st2.redis := by
  simp only [create_calendar_event]
  split
  · intro _; rfl
  · split_ifs with hu
    · intro _; rfl
    · split
      · intro _; rfl
      · split_ifs with hk
        · split
          · intro _; rfl
          · split
            · intro h
              simp [is_success, List.lookup] at h
            · intro h
              simp [is_success, List.lookup] at h
        · intro _; rfl

/-- Claim C4: with the idempotency store available, a fresh idempotency
key, and a successful first run, a second `create_calendar_event` with the
same `(user_id, title, start_datetime)` within the 1-hour TTL returns the
same response, the connector is invoked exactly once across both runs, and
(in general) the cached record is written only by runs whose response is
successful. -/
theorem C4_create_calendar_event_idempotent (env : JobEnv) (kv : KVStore)
    (calls0 now1 now2 : Nat) (userId title startDatetime : String)
    (hfresh : kvGet kv (generate_idempotency_key userId title startDatetime) now1 = none)
    (hsucc : is_success
        (create_calendar_event env ⟨some kv, calls0⟩ now1 userId title startDatetime).1
      = true)
    (httl : now2 < now1 + 3600) :
    ((create_calendar_event env
        (create_calendar_event env ⟨some kv, calls0⟩ now1 userId title startDatetime).2
        now2 userId title startDatetime).1
      = (create_calendar_event env ⟨some kv, calls0⟩ now1 userId title startDatetime).1)
    ∧ (create_calendar_event env ⟨some kv, calls0⟩ now1 userId title
        startDatetime).2.connectorCalls = calls0 + 1
    ∧ (create_calendar_event env
        (create_calendar_event env ⟨some kv, calls0⟩ now1 userId title startDatetime).2
        now2 userId title startDatetime).2.connectorCalls = calls0 + 1
    ∧ (∀ (env2 : JobEnv) (st2 : JobState) (n : Nat) (u2 t2 s2 : String),
        is_success (create_calendar_event env2 st2 n u2 t2 s2).1 = false →
        (create_calendar_event env2 st2 n u2 t2 s2).2.redis = st2.redis) := by
  cases hu : env.userExists with
  | false =>
    have h1 : create_calendar_event env ⟨some kv, calls0⟩ now1 userId title startDatetime
        = (errorResponse "User not found", ⟨some kv, calls0⟩) := by
      simp [create_calendar_event, hfresh, hu]
    rw [h1] at hsucc
    simp [is_success, errorResponse, List.lookup] at hsucc
  | true =>
    cases hp : env.integrationProvider with
    | none =>
      have h1 : create_calendar_event env ⟨some kv, calls0⟩ now1 userId title startDatetime
          = (errorResponse "No calendar integration found", ⟨some kv, calls0⟩) := by
        simp [create_calendar_event, hfresh, hu, hp]
      rw [h1] at hsucc
      simp [is_success, errorResponse, List.lookup] at hsucc
    | some provider =>
      cases hk : knownCalendarProviders.contains provider with
      | false =>
        have hnotmem : ¬ provider ∈ knownCalendarProviders := by simpa using hk
        have h1 : create_calendar_event env ⟨some kv, calls0⟩ now1 userId title startDatetime
            = (errorResponse ("Unknown provider: " ++ provider), ⟨some kv, calls0⟩) := by
          simp [create_calendar_event, hfresh, hu, hp, hnotmem]
        rw [h1] at hsucc
        simp [is_success, errorResponse, List.lookup] at hsucc
      | true =>
        have hmem : provider ∈ knownCalendarProviders := by simpa using hk
        cases hconn : env.connectorResult calls0 with
        | error e =>
          have h1 : create_calendar_event env ⟨some kv, calls0⟩ now1 userId title startDatetime
              = (errorResponse e, ⟨some kv, calls0 + 1⟩) := by
            simp [create_calendar_event, hfresh, hu, hp, hmem, hconn]
          rw [h1] at hsucc
          simp [is_success, errorResponse, List.lookup] at hsucc
        | ok result =>
          have h1 : create_calendar_event env ⟨some kv, calls0⟩ now1 userId title startDatetime
              = (Json.obj [("success", Json.bool true), ("event", result)],
                  ⟨some (kvSetex kv (generate_idempotency_key userId title startDatetime)
                      (Json.obj [("success", Json.bool true), ("event", result)]) 3600 now1),
                    calls0 + 1⟩) := by
            simp [create_calendar_event, hfresh, hu, hp, hmem, hconn]
          have h2 : kvGet
              (kvSetex kv (generate_idempotency_key userId title startDatetime)
                (Json.obj [("success", Json.bool true), ("event", result)]) 3600 now1)
              (generate_idempotency_key userId title startDatetime) now2
              = some (Json.obj [("success", Json.bool true), ("event", result)]) := by
            simp [kvGet, kvSetex, List.lookup, httl]
          have hrun2 : create_calendar_event env
              ⟨some (kvSetex kv (generate_idempotency_key userId title startDatetime)
                  (Json.obj [("success", Json.bool true), ("event", result)]) 3600 now1),
                calls0 + 1⟩ now2 userId title startDatetime
              = (Json.obj [("success", Json.bool true), ("event", result)],
                  ⟨some (kvSetex kv (generate_idempotency_key userId title startDatetime)
                      (Json.obj [("success", Json.bool true), ("event", result)]) 3600 now1),
                    calls0 + 1⟩) := by
            simp [create_calendar_event, h2]
          refine ⟨?_, ?_, ?_, create_calendar_event_no_write_on_failure⟩
          · rw [h1]
            dsimp only
            rw [hrun2]
          · rw [h1]
          · rw [h1]
            dsimp only
            rw [hrun2]

theorem C4_create_calendar_event_idempotent_witness :
    (kvGet ([] : KVStore) (generate_idempotency_key "u" "t" "s") 0 = none)
    ∧ ((create_calendar_event
          ⟨true, some "google_calendar", fun _ => Except.ok (Json.str "E1")⟩
          (create_calendar_event
            ⟨true, some "google_calendar", fun _ => Except.ok (Json.str "E1")⟩
            ⟨some [], 0⟩ 0 "u" "t" "s").2
          10 "u" "t" "s").1
        = (create_calendar_event
            ⟨true, some "google_calendar", fun _ => Except.ok (Json.str "E1")⟩
            ⟨some [], 0⟩ 0 "u" "t" "s").1)
    ∧ (create_calendar_event
          ⟨true, some "google_calendar", fun _ => Except.ok (Json.str "E1")⟩
          (create_calendar_event
            ⟨true, some "google_calendar", fun _ => Except.ok (Json.str "E1")⟩
            ⟨some [], 0⟩ 0 "u" "t" "s").2
          10 "u" "t" "s").2.connectorCalls = 0 + 1 := by
  have h := C4_create_calendar_event_idempotent
    ⟨true, some "google_calendar", fun _ => Except.ok (Json.str "E1")⟩ [] 0 0 10
    "u" "t" "s" rfl (by decide) (by omega)
  exact ⟨rfl, h.1, h.2.2.1⟩

end Taskman
